import Mathlib

/-!
# Scene script: player movement, camera modes and camera follow

A shallow embedding of `src/js/script.js`.  The script is one module whose
top-level `let`/`const` bindings are its state; the functions and event
handlers mutate that state.  Here the state is a record and every function
is a state transformer.

Numbers of the script are JavaScript doubles.  The definitions are written
once, over a number type `K` that only has to provide the operations the
script uses (literals, `+ - * /`, unary minus, `<`, `Math.min`, `Math.max`),
and are read in two ways:

* over `F64`, a model of IEEE 754 binary64 with NaN, infinities, signed
  zeros and round-to-nearest-even, which is what the script runs on;
* over an ordered field (the rationals, the reals), which is exact
  arithmetic: no rounding, no NaN, no infinities.

`Math.sqrt` (inside `Vector3.length`), `Math.atan2` and `Math.PI` are a
parameter of the embedding (`MathPrims`): `F64.sqrt` for doubles, the real
square root for the theorems over the reals.
-/

set_option linter.unusedSectionVars false

namespace Script

/-- The functions and constants of `Math` the script relies on. -/
structure MathPrims (K : Type) where
  sqrt : K → K
  atan2 : K → K → K
  pi : K

/-- The engine's three-component vector (`Vector3`). -/
structure Vector3 (K : Type) where
  x : K
  y : K
  z : K
deriving DecidableEq

namespace Vector3

variable {K : Type} [Zero K] [One K] [NatCast K] [OfScientific K] [Add K] [Sub K] [Mul K]
  [Div K] [Neg K] [LT K] [∀ a b : K, Decidable (a < b)] [Min K] [Max K]

/-- The method `a.add(b)`. -/
def add (a b : Vector3 K) : Vector3 K := ⟨a.x + b.x, a.y + b.y, a.z + b.z⟩

/-- The method `a.sub(b)`. -/
def sub (a b : Vector3 K) : Vector3 K := ⟨a.x - b.x, a.y - b.y, a.z - b.z⟩

/-- The method `a.multiplyScalar(k)`. -/
def multiplyScalar (a : Vector3 K) (k : K) : Vector3 K := ⟨a.x * k, a.y * k, a.z * k⟩

/-- The method `a.lengthSq()`. -/
def lengthSq (a : Vector3 K) : K := a.x * a.x + a.y * a.y + a.z * a.z

/-- The method `a.length()`: the square root of `lengthSq`. -/
def length (P : MathPrims K) (a : Vector3 K) : K := P.sqrt (lengthSq a)

/-- The method `a.normalize()`, which the engine defines as
`this.divideScalar(this.length() || 1)`, with
`divideScalar(s) = multiplyScalar(1 / s)`.  The operator `||` keeps its left
operand when that is truthy; a number is truthy when it is neither zero nor
NaN, that is, when it is above or below zero. -/
def normalize (P : MathPrims K) (a : Vector3 K) : Vector3 K :=
  let l := length P a
  multiplyScalar a (1 / (if 0 < l ∨ l < 0 then l else 1))

/-- The method `crossVectors(a, b)` on a fresh vector. -/
def crossVectors (a b : Vector3 K) : Vector3 K :=
  ⟨a.y * b.z - a.z * b.y, a.z * b.x - a.x * b.z, a.x * b.y - a.y * b.x⟩

end Vector3

/-! ## IEEE 754 binary64, the number type of the script

Every finite double is a whole multiple of `2^-1074`, so a finite double is
kept as a sign and a natural number of such units.  An operation computes its
exact result as a quotient of naturals and rounds it to the nearest double,
ties to even, as the standard prescribes (`sqrt` included).
-/

/-- An IEEE 754 binary64 value: NaN, an infinity, or a signed finite number
`n * 2^-1074` (`fin true 0` is the negative zero). -/
inductive F64 where
  | nan
  | inf (neg : Bool)
  | fin (neg : Bool) (n : Nat)
deriving DecidableEq

namespace F64

/-- The number of units in 1, `2^1074`. -/
def unit : Nat := 1 <<< 1074

/-- The magnitude `2^1024`, in units: every finite double is below it. -/
def huge : Nat := 1 <<< 2098

/-- The integer nearest to `num / den`, ties to the even one. -/
def roundNearestEven (num den : Nat) : Nat :=
  let q := num / den
  let r := num % den
  if 2 * r < den then q
  else if den < 2 * r then q + 1
  else if q % 2 = 0 then q else q + 1

/-- The least `s` with `q / 2^s < 2^53`: how many low bits of `q` a 53-bit
significand cannot hold.  Found by doubling steps, for `q` below `2^16000`
(exact results of operations on doubles stay below `2^3200`). -/
def excessBits (q : Nat) : Nat :=
  if q < 1 <<< 53 then 0
  else
    [8192, 4096, 2048, 1024, 512, 256, 128, 64, 32, 16, 8, 4, 2, 1].foldl
      (fun t k => if q >>> (t + k) < 1 <<< 53 then t else t + k) 0 + 1

/-- The multiple of units nearest to `num / den` units that a 53-bit
significand can hold (exponent unbounded above). -/
def roundUnits (num den : Nat) : Nat :=
  let s := excessBits (num / den)
  roundNearestEven num (den <<< s) <<< s

/-- The double nearest to `num / den` units with the given sign; overflow
gives the infinity. -/
def ofUnits (neg : Bool) (num den : Nat) : F64 :=
  let n := roundUnits num den
  if n < huge then fin neg n else inf neg

/-- Unary minus. -/
def neg : F64 → F64
  | nan => nan
  | inf s => inf (!s)
  | fin s n => fin (!s) n

/-- The operator `+`. -/
def add : F64 → F64 → F64
  | nan, _ => nan
  | _, nan => nan
  | inf a, inf b => if a = b then inf a else nan
  | inf a, fin _ _ => inf a
  | fin _ _, inf b => inf b
  | fin a m, fin b n =>
    if a = b then ofUnits a (m + n) 1
    else if n < m then ofUnits a (m - n) 1
    else if m < n then ofUnits b (n - m) 1
    else fin false 0

/-- The operator `-`. -/
def sub (x y : F64) : F64 := add x (neg y)

/-- The operator `*`. -/
def mul : F64 → F64 → F64
  | nan, _ => nan
  | _, nan => nan
  | inf a, inf b => inf (a != b)
  | inf a, fin b n => if n = 0 then nan else inf (a != b)
  | fin a m, inf b => if m = 0 then nan else inf (a != b)
  | fin a m, fin b n => ofUnits (a != b) (m * n) unit

/-- The operator `/`. -/
def div : F64 → F64 → F64
  | nan, _ => nan
  | _, nan => nan
  | inf _, inf _ => nan
  | inf a, fin b _ => inf (a != b)
  | fin a _, inf b => fin (a != b) 0
  | fin a m, fin b n =>
    if n = 0 then (if m = 0 then nan else inf (a != b))
    else ofUnits (a != b) (m * unit) n

/-- Newton's iteration for the integer square root of `n`, from a start `x`
at or above it. -/
def isqrtLoop (n : Nat) : Nat → Nat → Nat
  | 0, x => x
  | fuel + 1, x =>
    let y := (x + n / x) / 2
    if y < x then isqrtLoop n fuel y else x

/-- The integer square root: the largest `r` with `r * r ≤ n`. -/
def isqrt (n : Nat) : Nat := if n = 0 then 0 else isqrtLoop n n n

/-- The function `Math.sqrt`.  The root of `n` units is the root of the natural number
`n * 2^1074`, in units; when that is not a whole number, `r + 1/2` rounds the
same way, the grid of doubles being far coarser than 1 unit there. -/
def sqrt : F64 → F64
  | nan => nan
  | inf s => if s then nan else inf false
  | fin s n =>
    if n = 0 then fin s 0
    else if s then nan
    else
      let r := isqrt (n * unit)
      if r * r = n * unit then ofUnits false r 1 else ofUnits false (2 * r + 1) 2

/-- The comparison `<`: false when either side is NaN; the two zeros are equal. -/
def lt : F64 → F64 → Bool
  | nan, _ => false
  | _, nan => false
  | inf a, inf b => a && !b
  | inf a, fin _ _ => a
  | fin _ _, inf b => !b
  | fin false m, fin false n => decide (m < n)
  | fin false _, fin true _ => false
  | fin true m, fin false n => decide (0 < m + n)
  | fin true m, fin true n => decide (n < m)

/-- The comparison `<=`: false when either side is NaN. -/
def le : F64 → F64 → Bool
  | nan, _ => false
  | _, nan => false
  | inf a, inf b => a || !b
  | inf a, fin _ _ => a
  | fin _ _, inf b => !b
  | fin false m, fin false n => decide (m ≤ n)
  | fin false m, fin true n => decide (m + n = 0)
  | fin true _, fin false _ => true
  | fin true m, fin true n => decide (n ≤ m)

/-- The function `Math.min` of two numbers: NaN if either is NaN; the negative zero is
below the positive one. -/
def min : F64 → F64 → F64
  | nan, _ => nan
  | _, nan => nan
  | a, b => if lt a b then a else if lt b a then b else if a = fin true 0 then a else b

/-- The function `Math.max` of two numbers: NaN if either is NaN; the positive zero is
above the negative one. -/
def max : F64 → F64 → F64
  | nan, _ => nan
  | _, nan => nan
  | a, b => if lt a b then b else if lt b a then a else if a = fin false 0 then a else b

/-- The double of a natural number. -/
def ofNat (k : Nat) : F64 := ofUnits false (k * unit) 1

/-- The double a decimal literal `mantissa e±decimalExponent` denotes: the
nearest one. -/
def ofScientific (mantissa : Nat) (exponentSign : Bool) (decimalExponent : Nat) : F64 :=
  if exponentSign then ofUnits false (mantissa * unit) (10 ^ decimalExponent)
  else ofUnits false (mantissa * 10 ^ decimalExponent * unit) 1

instance : Zero F64 := ⟨fin false 0⟩
instance : One F64 := ⟨ofNat 1⟩
instance : NatCast F64 := ⟨ofNat⟩
instance : OfScientific F64 := ⟨ofScientific⟩
instance : Add F64 := ⟨add⟩
instance : Sub F64 := ⟨sub⟩
instance : Mul F64 := ⟨mul⟩
instance : Div F64 := ⟨div⟩
instance : Neg F64 := ⟨neg⟩
instance : LT F64 := ⟨fun a b => lt a b = true⟩
instance : LE F64 := ⟨fun a b => le a b = true⟩
instance : Min F64 := ⟨min⟩
instance : Max F64 := ⟨max⟩
instance (a b : F64) : Decidable (a < b) := inferInstanceAs (Decidable (lt a b = true))
instance (a b : F64) : Decidable (a ≤ b) := inferInstanceAs (Decidable (le a b = true))

end F64

/-- A `PerspectiveCamera`: the fields the script reads or writes.
`worldDirection` is what `getWorldDirection` returns; it is owned by the
orbit and pointer-lock controls. -/
structure PerspectiveCamera (K : Type) where
  fov : K
  aspect : K
  position : Vector3 K
  worldDirection : Vector3 K
deriving DecidableEq

/-- The two camera objects `activeCamera` can refer to. -/
inductive CameraRef where
  | thirdPersonCamera
  | firstPersonCamera
deriving DecidableEq

/-- The `movement` record (lines 98-104). -/
structure Movement where
  forward : Bool
  backward : Bool
  left : Bool
  right : Bool
  sprint : Bool
deriving DecidableEq

/-- A scene object (the player mesh, the loaded character rig): the fields
the script touches.  `rotation` holds the Euler angles. -/
structure Object3D (K : Type) where
  visible : Bool
  position : Vector3 K
  rotation : Vector3 K
  scale : Vector3 K
deriving DecidableEq

/-- The `OrbitControls` object: the fields the script touches. -/
structure OrbitControls (K : Type) where
  enabled : Bool
  target : Vector3 K
deriving DecidableEq

/-- The `PointerLockControls` object: whether the last call was `lock()`
(true) or `unlock()` (false). -/
structure PointerLockControls where
  lockRequested : Bool
deriving DecidableEq

/-- The module state of the script. -/
structure State (K : Type) where
  rendererSize : K × K
  thirdPersonCamera : PerspectiveCamera K
  firstPersonCamera : PerspectiveCamera K
  orbitControls : OrbitControls K
  pointerControls : PointerLockControls
  activeCamera : CameraRef
  activeMode : String
  movement : Movement
  velocityY : K
  onGround : Bool
  mapY : Option K
  player : Object3D K
  playerModel : Option (Object3D K)
  previousPlayerPos : Vector3 K
  isFirstFrame : Bool
deriving DecidableEq

section Defs

variable {K : Type} [Zero K] [One K] [NatCast K] [OfScientific K] [Add K] [Sub K] [Mul K]
  [Div K] [Neg K] [LT K] [∀ a b : K, Decidable (a < b)] [Min K] [Max K]

/-- Eye height of the first-person camera above the player (line 80). -/
def FIRST_PERSON_HEIGHT : K := 3.4

/-- Walking speed, units per second (line 106). -/
def MOVEMENT_SPEED : K := 3.8

/-- Factor applied to the speed while sprinting (line 107). -/
def SPRINT_MULTIPLIER : K := 1.6

/-- Vertical acceleration (line 110). -/
def GRAVITY : K := -25

/-- Vertical velocity given by a jump (line 111). -/
def JUMP_POWER : K := 8

/-- The state once the module's top level has run (lines 32-147, 280-281,
350-351), for a window of size `w` by `h`.  `dir3` is the direction the
third-person camera faces after the orbit controls are constructed. -/
def init (w h : K) (dir3 : Vector3 K) : State K :=
  { rendererSize := (w, h)
    thirdPersonCamera :=
      { fov := 60, aspect := w / h, position := ⟨38, 4, -32⟩, worldDirection := dir3 }
    firstPersonCamera :=
      { fov := 65, aspect := w / h, position := ⟨0, 0, 0⟩, worldDirection := ⟨0, 0, -1⟩ }
    orbitControls := { enabled := true, target := ⟨0, 0, 0⟩ }
    pointerControls := { lockRequested := false }
    activeCamera := CameraRef.thirdPersonCamera
    activeMode := "third-person"
    movement :=
      { forward := false, backward := false, left := false, right := false, sprint := false }
    velocityY := 0
    onGround := true
    mapY := none
    player :=
      { visible := true, position := ⟨38, 0, -38⟩, rotation := ⟨0, 0, 0⟩, scale := ⟨1, 1, 1⟩ }
    playerModel := none
    previousPlayerPos := ⟨38, 0, -38⟩
    isFirstFrame := true }

/-- The camera `activeCamera` refers to. -/
def State.activeCameraObj (s : State K) : PerspectiveCamera K :=
  match s.activeCamera with
  | CameraRef.thirdPersonCamera => s.thirdPersonCamera
  | CameraRef.firstPersonCamera => s.firstPersonCamera

/-- The map loader's callback (lines 125-139): the map is raised by one unit
and added to the scene. -/
def onMapLoaded (mapY : K) (s : State K) : State K :=
  { s with mapY := some (mapY + 1.0) }

/-- The character loader's callback (lines 154-169).  `boxMin`, `boxMax` are
the corners of the bounding box `Box3().setFromObject` computes. -/
def onModelLoaded (P : MathPrims K) (fbx : Object3D K) (boxMin boxMax : Vector3 K)
    (s : State K) : State K :=
  let originalHeight := boxMax.y - boxMin.y
  let originalWidth := max (boxMax.x - boxMin.x) (boxMax.z - boxMin.z)
  let scaleY := 3.5 / originalHeight
  let scaleXZ := 2.0 / originalWidth
  { s with
    playerModel :=
      some { fbx with scale := ⟨scaleXZ, scaleY, scaleXZ⟩, rotation.y := P.pi } }

/-- The function `setMode(mode)` (lines 175-191). -/
def setMode (mode : String) (s : State K) : State K :=
  if s.activeMode = mode then s
  else if mode = "first-person" then
    { s with
      playerModel := s.playerModel.map (fun m => { m with visible := false })
      orbitControls.enabled := false
      pointerControls.lockRequested := true
      activeCamera := CameraRef.firstPersonCamera
      activeMode := "first-person" }
  else
    { s with
      playerModel := s.playerModel.map (fun m => { m with visible := true })
      orbitControls.enabled := true
      pointerControls.lockRequested := false
      activeCamera := CameraRef.thirdPersonCamera
      activeMode := "third-person" }

/-- The `keydown` listener (lines 196-212). -/
def keydown (code : String) (s : State K) : State K :=
  if code = "Digit1" then setMode "first-person" s
  else if code = "Digit3" then setMode "third-person" s
  else if code = "KeyW" then { s with movement := { s.movement with forward := true } }
  else if code = "KeyS" then { s with movement := { s.movement with backward := true } }
  else if code = "KeyA" then { s with movement := { s.movement with left := true } }
  else if code = "KeyD" then { s with movement := { s.movement with right := true } }
  else if code = "ShiftLeft" then { s with movement := { s.movement with sprint := true } }
  else if code = "Space" then
    if s.onGround then { s with velocityY := JUMP_POWER, onGround := false } else s
  else s

/-- The `keyup` listener (lines 214-222). -/
def keyup (code : String) (s : State K) : State K :=
  if code = "KeyW" then { s with movement := { s.movement with forward := false } }
  else if code = "KeyS" then { s with movement := { s.movement with backward := false } }
  else if code = "KeyA" then { s with movement := { s.movement with left := false } }
  else if code = "KeyD" then { s with movement := { s.movement with right := false } }
  else if code = "ShiftLeft" then { s with movement := { s.movement with sprint := false } }
  else s

/-- The value of `speed` in `updateMovement` (line 228). -/
def speed (m : Movement) : K :=
  MOVEMENT_SPEED * (if m.sprint then SPRINT_MULTIPLIER else 1)

/-- The vector `move` of `updateMovement` as it stands at line 246, before
the test `move.lengthSq() > 0` (lines 231-244). -/
def moveSum (P : MathPrims K) (s : State K) : Vector3 K :=
  let forward := s.activeCameraObj.worldDirection
  let forward := { forward with y := 0 }
  let forward := Vector3.normalize P forward
  let right := Vector3.normalize P (Vector3.crossVectors forward ⟨0, 1, 0⟩)
  let move : Vector3 K := ⟨0, 0, 0⟩
  let move := if s.movement.forward then Vector3.add move forward else move
  let move := if s.movement.backward then Vector3.sub move forward else move
  let move := if s.movement.left then Vector3.sub move right else move
  let move := if s.movement.right then Vector3.add move right else move
  move

/-- The camera-relative horizontal step of `updateMovement` (lines 228-255). -/
def horizontalStep (P : MathPrims K) (dt : K) (s : State K) : State K :=
  let move := moveSum P s
  if Vector3.lengthSq move > 0 then
    let move := Vector3.normalize P move
    let move := Vector3.multiplyScalar move (speed s.movement * dt)
    { s with
      player.position := Vector3.add s.player.position move
      player.rotation.y :=
        if s.playerModel.isSome then P.atan2 move.x move.z else s.player.rotation.y }
  else s

/-- The gravity-and-jump block of `updateMovement` (lines 257-265). -/
def verticalStep (dt : K) (s : State K) : State K :=
  let velocityY := s.velocityY + GRAVITY * dt
  let y := s.player.position.y + velocityY * dt
  if y < 0 then
    { s with player.position.y := 0, onGround := true, velocityY := 0 }
  else
    { s with player.position.y := y, velocityY := velocityY }

/-- The first-person camera placement of `updateMovement` (lines 267-274). -/
def firstPersonFollow (s : State K) : State K :=
  if s.activeMode = "first-person" then
    { s with
      firstPersonCamera :=
        { s.firstPersonCamera with
          position :=
            ⟨s.player.position.x, s.player.position.y + FIRST_PERSON_HEIGHT, s.player.position.z⟩ } }
  else s

/-- The function `updateMovement(dt)` (lines 227-275): its three blocks in sequence. -/
def updateMovement (P : MathPrims K) (dt : K) (s : State K) : State K :=
  firstPersonFollow (verticalStep dt (horizontalStep P dt s))

/-- The function `updateThirdPersonCamera(dt)` (lines 283-310). -/
def updateThirdPersonCamera (_dt : K) (s : State K) : State K :=
  if s.activeMode ≠ "third-person" then s
  else if s.isFirstFrame then
    let targetPos := s.player.position
    let targetPos := { targetPos with y := targetPos.y + 1.5 }
    { s with
      orbitControls.target := targetPos
      isFirstFrame := false
      previousPlayerPos := s.player.position }
  else
    let playerMovement := Vector3.sub s.player.position s.previousPlayerPos
    let targetPos := s.player.position
    let targetPos := { targetPos with y := targetPos.y + 1.5 }
    { s with
      thirdPersonCamera :=
        { s.thirdPersonCamera with
          position := Vector3.add s.thirdPersonCamera.position playerMovement }
      orbitControls.target := targetPos
      previousPlayerPos := s.player.position }

/-- The function `resize()` (lines 315-324) for a window of size `w` by `h`. -/
def resize (w h : K) (s : State K) : State K :=
  { s with
    rendererSize := (w, h)
    thirdPersonCamera := { s.thirdPersonCamera with aspect := w / h }
    firstPersonCamera := { s.firstPersonCamera with aspect := w / h } }

/-- The call `orbitControls.update()`: the engine's orbit controller moves and turns
the third-person camera about its target.  The pose it computes is supplied
from outside (`pos`, `dir`). -/
def orbitControlsUpdate (pos dir : Vector3 K) (s : State K) : State K :=
  { s with thirdPersonCamera := { s.thirdPersonCamera with position := pos, worldDirection := dir } }

/-- The pointer-lock controller's mouse handler turns the first-person camera. -/
def pointerLook (dir : Vector3 K) (s : State K) : State K :=
  { s with firstPersonCamera := { s.firstPersonCamera with worldDirection := dir } }

/-- The `dt` of `animate` (line 333) for a clock delta `d`. -/
def frameDt (d : K) : K := min d 0.05

/-- The function `animate()` (lines 332-348) for a clock delta `d`; the coordinate
read-out and the render call only read the state. -/
def animate (P : MathPrims K) (d : K) (orbitPos orbitDir : Vector3 K) (s : State K) : State K :=
  let dt := frameDt d
  let s := updateMovement P dt s
  if s.activeMode = "third-person" then
    orbitControlsUpdate orbitPos orbitDir (updateThirdPersonCamera dt s)
  else s

/-- Everything that can happen to the state after start-up. -/
inductive Event (K : Type) where
  | keydown (code : String)
  | keyup (code : String)
  | resize (w h : K)
  | frame (d : K) (orbitPos orbitDir : Vector3 K)
  | mapLoaded (mapY : K)
  | modelLoaded (fbx : Object3D K) (boxMin boxMax : Vector3 K)
  | pointerLook (dir : Vector3 K)
  | callSetMode (mode : String)
  | callUpdateMovement (dt : K)
  | callUpdateThirdPersonCamera (dt : K)

/-- The effect of one event. -/
def step (P : MathPrims K) (s : State K) : Event K → State K
  | Event.keydown code => keydown code s
  | Event.keyup code => keyup code s
  | Event.resize w h => resize w h s
  | Event.frame d orbitPos orbitDir => animate P d orbitPos orbitDir s
  | Event.mapLoaded mapY => onMapLoaded mapY s
  | Event.modelLoaded fbx boxMin boxMax => onModelLoaded P fbx boxMin boxMax s
  | Event.pointerLook dir => pointerLook dir s
  | Event.callSetMode mode => setMode mode s
  | Event.callUpdateMovement dt => updateMovement P dt s
  | Event.callUpdateThirdPersonCamera dt => updateThirdPersonCamera dt s

/-- The state reached from `s` by a sequence of events. -/
def run (P : MathPrims K) (s : State K) (evs : List (Event K)) : State K :=
  evs.foldl (step P) s

/-- The aspect ratios of the two cameras. -/
def aspects (s : State K) : K × K := (s.thirdPersonCamera.aspect, s.firstPersonCamera.aspect)

/-- The mode, the active camera and the orbit controller agree. -/
structure ModeInv (s : State K) : Prop where
  mode : s.activeMode = "first-person" ∨ s.activeMode = "third-person"
  first : s.activeCamera = CameraRef.firstPersonCamera ↔ s.activeMode = "first-person"
  third : s.activeCamera = CameraRef.thirdPersonCamera ↔ s.activeMode = "third-person"
  orbit : s.orbitControls.enabled = true ↔ s.activeMode = "third-person"

/-- The start-up state for an 800 by 600 window, the third-person camera
facing along `(3, -1, 4)`. -/
def startState : State K := init 800 600 ⟨3, -1, 4⟩

/-- The start-up state with the forward key held. -/
def walkingState : State K := keydown "KeyW" startState

/-- A third-person state past its first frame in which the player has moved
one unit along x since the camera last followed. -/
def followState : State K :=
  { (startState : State K) with isFirstFrame := false, player.position := ⟨39, 0, -38⟩ }

/-- The character rig as the loader hands it over: visible, unscaled. -/
def loadedRig : Object3D K :=
  { visible := true, position := ⟨0, 0, 0⟩, rotation := ⟨0, 0, 0⟩, scale := ⟨1, 1, 1⟩ }

/-- The start-up state in double arithmetic with the forward key held and the
camera facing almost straight down, along `(1e-170, -1, 0)`. -/
def steepState : State F64 := keydown "KeyW" (init 800 600 ⟨1e-170, -1, 0⟩)

/-- The math primitives in double arithmetic.  `Math.atan2` is left as a
constant: its value reaches only `player.rotation.y`. -/
def f64Prims : MathPrims F64 :=
  { sqrt := F64.sqrt
    atan2 := fun _ _ => 0
    pi := 3.141592653589793 }

/-- The start-up state in double arithmetic for an 800 by 600 window, the
third-person camera facing along the unit vector `(0, 0, -1)`. -/
def startState64 : State F64 := init 800 600 ⟨0, 0, -1⟩

/-- The start-up state in double arithmetic with the forward key held. -/
def walkingState64 : State F64 := keydown "KeyW" startState64

/-- A third-person state in double arithmetic past its first frame in which
the player has moved one unit along x since the camera last followed. -/
def followState64 : State F64 :=
  { startState64 with isFirstFrame := false, player.position := ⟨39, 0, -38⟩ }

/-- A third-person state in double arithmetic, past its first frame, in which
the player has risen to height 0.0775 since the camera last followed (camera
at height 4, `previousPlayerPos` at height 0). -/
def driftState : State F64 :=
  { startState64 with isFirstFrame := false, player.position := ⟨38, 0.0775, -38⟩ }

end Defs

section ExactDefs

variable {K : Type} [LinearOrderedField K]

/-- The quantity `y + velocityY^2 / 50` that gravity cannot increase. -/
def energy (s : State K) : K := s.player.position.y + s.velocityY ^ 2 / 50

/-- The facts about the vertical motion that hold in every reachable state. -/
structure VerticalInv (s : State K) : Prop where
  y_nonneg : 0 ≤ s.player.position.y
  grounded : s.onGround = true → s.player.position.y = 0 ∧ s.velocityY = 0
  energy_le : energy s ≤ 32 / 25

/-- Math primitives over the rationals, for evaluating the script on concrete
inputs: `sqrt` is exact on squares of rationals. -/
def ratPrims : MathPrims ℚ :=
  { sqrt := fun q => (Nat.sqrt q.num.toNat : ℚ) / (Nat.sqrt q.den : ℚ)
    atan2 := fun _ _ => 0
    pi := 355 / 113 }

end ExactDefs

/-! ## Facts that hold whatever the arithmetic -/

section AnyArithmetic

variable {K : Type} [Zero K] [One K] [NatCast K] [OfScientific K] [Add K] [Sub K] [Mul K]
  [Div K] [Neg K] [LT K] [∀ a b : K, Decidable (a < b)] [Min K] [Max K]

theorem horizontalStep_velocityY (P : MathPrims K) (dt : K) (s : State K) :
    (horizontalStep P dt s).velocityY = s.velocityY := by
  by_cases h : Vector3.lengthSq (moveSum P s) > 0 <;> simp [horizontalStep, h]

theorem horizontalStep_onGround (P : MathPrims K) (dt : K) (s : State K) :
    (horizontalStep P dt s).onGround = s.onGround := by
  by_cases h : Vector3.lengthSq (moveSum P s) > 0 <;> simp [horizontalStep, h]

theorem firstPersonFollow_playerPosition (s : State K) :
    (firstPersonFollow s).player.position = s.player.position := by
  unfold firstPersonFollow
  split_ifs <;> rfl

theorem firstPersonFollow_velocityY (s : State K) :
    (firstPersonFollow s).velocityY = s.velocityY := by
  unfold firstPersonFollow
  split_ifs <;> rfl

theorem firstPersonFollow_onGround (s : State K) :
    (firstPersonFollow s).onGround = s.onGround := by
  unfold firstPersonFollow
  split_ifs <;> rfl

theorem verticalStep_landing (dt : K) (s : State K)
    (h : s.player.position.y + (s.velocityY + GRAVITY * dt) * dt < 0) :
    (verticalStep dt s).player.position.y = 0 ∧ (verticalStep dt s).velocityY = 0 ∧
      (verticalStep dt s).onGround = true := by
  simp [verticalStep, h]

theorem verticalStep_airborne (dt : K) (s : State K)
    (h : ¬ s.player.position.y + (s.velocityY + GRAVITY * dt) * dt < 0) :
    (verticalStep dt s).player.position.y
        = s.player.position.y + (s.velocityY + GRAVITY * dt) * dt ∧
      (verticalStep dt s).velocityY = s.velocityY + GRAVITY * dt ∧
      (verticalStep dt s).onGround = s.onGround := by
  simp [verticalStep, h]

theorem setMode_vertical (mode : String) (s : State K) :
    (setMode mode s).player.position = s.player.position ∧
      (setMode mode s).velocityY = s.velocityY ∧ (setMode mode s).onGround = s.onGround := by
  unfold setMode
  split_ifs <;> exact ⟨rfl, rfl, rfl⟩

theorem updateThirdPersonCamera_vertical (dt : K) (s : State K) :
    (updateThirdPersonCamera dt s).player.position = s.player.position ∧
      (updateThirdPersonCamera dt s).velocityY = s.velocityY ∧
      (updateThirdPersonCamera dt s).onGround = s.onGround := by
  unfold updateThirdPersonCamera
  split_ifs <;> exact ⟨rfl, rfl, rfl⟩

theorem keyup_vertical (code : String) (s : State K) :
    (keyup code s).player.position = s.player.position ∧
      (keyup code s).velocityY = s.velocityY ∧ (keyup code s).onGround = s.onGround := by
  unfold keyup
  split_ifs <;> exact ⟨rfl, rfl, rfl⟩

theorem keydown_playerPosition (code : String) (s : State K) :
    (keydown code s).player.position = s.player.position := by
  unfold keydown
  split_ifs <;> first | rfl | exact (setMode_vertical _ s).1

theorem verticalStep_y_not_lt (h0 : ¬ (0 : K) < 0) (dt : K) (s : State K) :
    ¬ (verticalStep dt s).player.position.y < 0 := by
  by_cases h : s.player.position.y + (s.velocityY + GRAVITY * dt) * dt < 0
  · rw [(verticalStep_landing dt s h).1]
    exact h0
  · rw [(verticalStep_airborne dt s h).1]
    exact h

theorem updateMovement_y_not_lt (h0 : ¬ (0 : K) < 0) (P : MathPrims K) (dt : K) (s : State K) :
    ¬ (updateMovement P dt s).player.position.y < 0 := by
  unfold updateMovement
  rw [firstPersonFollow_playerPosition]
  exact verticalStep_y_not_lt h0 dt _

theorem animate_y_not_lt (h0 : ¬ (0 : K) < 0) (P : MathPrims K) (d : K)
    (orbitPos orbitDir : Vector3 K) (s : State K) :
    ¬ (animate P d orbitPos orbitDir s).player.position.y < 0 := by
  have hm := updateMovement_y_not_lt h0 P (frameDt d) s
  by_cases h : (updateMovement P (frameDt d) s).activeMode = "third-person"
  · simp only [animate, h, if_true]
    show ¬ (updateThirdPersonCamera (frameDt d) (updateMovement P (frameDt d) s)).player.position.y
      < 0
    rw [(updateThirdPersonCamera_vertical _ _).1]
    exact hm
  · simp only [animate, h, if_false]
    exact hm

theorem step_y_not_lt (h0 : ¬ (0 : K) < 0) (P : MathPrims K) (s : State K) (e : Event K)
    (hs : ¬ s.player.position.y < 0) : ¬ (step P s e).player.position.y < 0 := by
  cases e with
  | keydown code =>
    show ¬ (keydown code s).player.position.y < 0
    rw [keydown_playerPosition]
    exact hs
  | keyup code =>
    show ¬ (keyup code s).player.position.y < 0
    rw [(keyup_vertical code s).1]
    exact hs
  | resize w h => exact hs
  | frame d orbitPos orbitDir => exact animate_y_not_lt h0 P d orbitPos orbitDir s
  | mapLoaded mapY => exact hs
  | modelLoaded fbx boxMin boxMax => exact hs
  | pointerLook dir => exact hs
  | callSetMode mode =>
    show ¬ (setMode mode s).player.position.y < 0
    rw [(setMode_vertical mode s).1]
    exact hs
  | callUpdateMovement dt => exact updateMovement_y_not_lt h0 P dt s
  | callUpdateThirdPersonCamera dt =>
    show ¬ (updateThirdPersonCamera dt s).player.position.y < 0
    rw [(updateThirdPersonCamera_vertical dt s).1]
    exact hs

theorem run_y_not_lt (h0 : ¬ (0 : K) < 0) (P : MathPrims K) (evs : List (Event K))
    (s : State K) (hs : ¬ s.player.position.y < 0) :
    ¬ (run P s evs).player.position.y < 0 := by
  induction evs generalizing s with
  | nil => exact hs
  | cons e evs ih => exact ih (step P s e) (step_y_not_lt h0 P s e hs)

end AnyArithmetic

/-! ## Facts about the double comparisons -/

section Doubles

theorem F64.isqrtLoop_eq_iter (n : Nat) :
    ∀ fuel x : Nat, x ≤ fuel → F64.isqrtLoop n fuel x = Nat.sqrt.iter n x
  | 0, x, h => by
    have hx : x = 0 := by omega
    subst hx
    unfold Nat.sqrt.iter
    simp [F64.isqrtLoop]
  | fuel + 1, x, h => by
    unfold Nat.sqrt.iter
    by_cases hlt : (x + n / x) / 2 < x
    · simp only [F64.isqrtLoop, hlt, if_true, dif_pos]
      exact F64.isqrtLoop_eq_iter n fuel _ (by omega)
    · simp only [F64.isqrtLoop, hlt, if_false, dif_neg, not_false_eq_true]

/-- The integer square root of the model is the library's: the largest `r`
with `r * r ≤ n`. -/
theorem F64.isqrt_eq_sqrt (n : Nat) : F64.isqrt n = Nat.sqrt n := by
  by_cases h0 : n = 0
  · subst h0
    simp [F64.isqrt]
  · have hloop : F64.isqrt n = Nat.sqrt.iter n n := by
      simp only [F64.isqrt, h0, if_false]
      exact F64.isqrtLoop_eq_iter n n n le_rfl
    rw [hloop]
    refine Nat.eq_sqrt.2 ⟨Nat.sqrt.iter_sq_le n n, Nat.sqrt.lt_iter_succ_sq n n ?_⟩
    nlinarith

/-- Known values of double arithmetic, as checks of the model: rounding of
literals and sums, correctly rounded division and square root, overflow,
gradual underflow, signed zeros and NaN. -/
theorem F64.known_values :
    ((0.1 : F64) + 0.2 = 0.30000000000000004 ∧ (0.1 : F64) + 0.2 ≠ 0.3) ∧
      ((1 : F64) / 3 = 0.3333333333333333 ∧ (2 : F64) / 3 = 0.6666666666666666) ∧
      (F64.sqrt 2 = 1.4142135623730951 ∧ F64.sqrt 25 = 5) ∧
      ((3.8 : F64) * 1.6 = 6.08 ∧ (4 : F64) + 0.0775 - 0.0775 = 3.9999999999999996) ∧
      ((1e308 : F64) * 10 = F64.inf false ∧ (1.7976931348623157e308 : F64) + 1e291
        = 1.7976931348623157e308) ∧
      ((5e-324 : F64) / 2 = 0 ∧ (5e-324 : F64) = F64.fin false 1 ∧
        (1e-170 : F64) * 1e-170 = 0) ∧
      ((9007199254740992 : F64) + 1 = 9007199254740992 ∧
        (9007199254740992 : F64) + 3 = 9007199254740996) ∧
      ((0 : F64) * F64.inf false = F64.nan ∧ (0 : F64) / 0 = F64.nan ∧
        (1 : F64) / 0 = F64.inf false ∧ F64.sqrt (-1) = F64.nan) ∧
      (-(0 : F64) + 0 = 0 ∧ -(0 : F64) ≠ 0 ∧ ¬ -(0 : F64) < 0 ∧
        min (0 : F64) (-0) = -0 ∧ max (-0 : F64) 0 = 0) ∧
      (¬ F64.nan < (0 : F64) ∧ ¬ (0 : F64) ≤ F64.nan ∧ min F64.nan (0.05 : F64) = F64.nan ∧
        min (1 : F64) 0.05 = 0.05) := by
  decide!

theorem F64.zero_not_lt_zero : ¬ (0 : F64) < 0 := by decide

theorem F64.nan_or_nonneg_of_not_lt (y : F64) (h : ¬ y < 0) : y = F64.nan ∨ 0 ≤ y := by
  cases y with
  | nan => exact Or.inl rfl
  | inf b =>
    right
    cases b
    · decide
    · exact absurd (by decide) h
  | fin b n =>
    right
    cases b
    · show F64.le (F64.fin false 0) (F64.fin false n) = true
      simp [F64.le]
    · have hn : n = 0 := by
        by_contra hne
        apply h
        show F64.lt (F64.fin true n) (F64.fin false 0) = true
        simp only [F64.lt, add_zero, decide_eq_true_eq]
        omega
      subst hn
      decide

end Doubles

/-! ## Auxiliary facts about the vertical motion -/

section Vertical

variable {K : Type} [LinearOrderedField K]

theorem normalize_y (P : MathPrims K) (a : Vector3 K) (h : a.y = 0) :
    (Vector3.normalize P a).y = 0 := by
  simp [Vector3.normalize, Vector3.multiplyScalar, h]

theorem moveSum_y (P : MathPrims K) (s : State K) : (moveSum P s).y = 0 := by
  have hf : (Vector3.normalize P { s.activeCameraObj.worldDirection with y := 0 }).y = 0 :=
    normalize_y P _ rfl
  have hr : (Vector3.normalize P (Vector3.crossVectors
      (Vector3.normalize P { s.activeCameraObj.worldDirection with y := 0 }) ⟨0, 1, 0⟩)).y = 0 :=
    normalize_y P _ (by simp [Vector3.crossVectors])
  unfold moveSum
  cases s.movement.forward <;> cases s.movement.backward <;> cases s.movement.left <;>
    cases s.movement.right <;> simp [Vector3.add, Vector3.sub, hf, hr]

theorem horizontalStep_y (P : MathPrims K) (dt : K) (s : State K) :
    (horizontalStep P dt s).player.position.y = s.player.position.y := by
  by_cases h : Vector3.lengthSq (moveSum P s) > 0
  · simp [horizontalStep, h, Vector3.add, Vector3.multiplyScalar,
      normalize_y P _ (moveSum_y P s)]
  · simp [horizontalStep, h]

theorem verticalStep_y_nonneg (dt : K) (s : State K) :
    0 ≤ (verticalStep dt s).player.position.y := by
  by_cases h : s.player.position.y + (s.velocityY + GRAVITY * dt) * dt < 0
  · rw [(verticalStep_landing dt s h).1]
  · rw [(verticalStep_airborne dt s h).1]
    exact not_lt.mp h

theorem updateMovement_y_nonneg (P : MathPrims K) (dt : K) (s : State K) :
    0 ≤ (updateMovement P dt s).player.position.y := by
  unfold updateMovement
  rw [firstPersonFollow_playerPosition]
  exact verticalStep_y_nonneg dt _

/-- An operation that leaves height, vertical velocity and ground flag alone
keeps the vertical invariant. -/
theorem VerticalInv.congr_vertical {s t : State K} (hs : VerticalInv s)
    (hy : t.player.position.y = s.player.position.y) (hv : t.velocityY = s.velocityY)
    (hg : t.onGround = s.onGround) : VerticalInv t := by
  refine ⟨?_, ?_, ?_⟩
  · rw [hy]; exact hs.y_nonneg
  · rw [hy, hv, hg]; exact hs.grounded
  · unfold energy; rw [hy, hv]; exact hs.energy_le

theorem verticalInv_init (w h : K) (dir3 : Vector3 K) : VerticalInv (init w h dir3) := by
  refine ⟨?_, ?_, ?_⟩
  · simp [init]
  · simp [init]
  · simp only [init, energy]
    norm_num

theorem verticalStep_energy_le (dt : K) (s : State K) (hy : 0 ≤ s.player.position.y) :
    energy (verticalStep dt s) ≤ energy s := by
  unfold energy
  by_cases h : s.player.position.y + (s.velocityY + GRAVITY * dt) * dt < 0
  · have : 0 ≤ s.velocityY ^ 2 / 50 := by positivity
    obtain ⟨h1, h2, -⟩ := verticalStep_landing dt s h
    rw [h1, h2]
    norm_num
    linarith
  · obtain ⟨h1, h2, -⟩ := verticalStep_airborne dt s h
    rw [h1, h2]
    simp only [GRAVITY]
    nlinarith [sq_nonneg dt]

theorem verticalInv_keydown (code : String) (s : State K) (hs : VerticalInv s) :
    VerticalInv (keydown code s) := by
  unfold keydown
  split_ifs with h1 h2 h3 h4 h5 h6 h7 h8 h9
  · exact hs.congr_vertical (congrArg _ (setMode_vertical _ s).1) (setMode_vertical _ s).2.1
      (setMode_vertical _ s).2.2
  · exact hs.congr_vertical (congrArg _ (setMode_vertical _ s).1) (setMode_vertical _ s).2.1
      (setMode_vertical _ s).2.2
  · exact hs.congr_vertical rfl rfl rfl
  · exact hs.congr_vertical rfl rfl rfl
  · exact hs.congr_vertical rfl rfl rfl
  · exact hs.congr_vertical rfl rfl rfl
  · exact hs.congr_vertical rfl rfl rfl
  · obtain ⟨hy, -⟩ := hs.grounded h9
    refine ⟨hs.y_nonneg, ?_, ?_⟩
    · intro h; simp at h
    · show s.player.position.y + JUMP_POWER ^ 2 / 50 ≤ 32 / 25
      rw [hy]
      simp only [JUMP_POWER]
      norm_num
  · exact hs
  · exact hs

theorem verticalInv_updateMovement (P : MathPrims K) (dt : K) (s : State K)
    (hs : VerticalInv s) : VerticalInv (updateMovement P dt s) := by
  have hh : VerticalInv (horizontalStep P dt s) :=
    hs.congr_vertical (horizontalStep_y P dt s) (horizontalStep_velocityY P dt s)
      (horizontalStep_onGround P dt s)
  have hv : VerticalInv (verticalStep dt (horizontalStep P dt s)) := by
    refine ⟨verticalStep_y_nonneg dt _, ?_, ?_⟩
    · intro hg
      by_cases h : (horizontalStep P dt s).player.position.y
          + ((horizontalStep P dt s).velocityY + GRAVITY * dt) * dt < 0
      · exact ⟨(verticalStep_landing dt _ h).1, (verticalStep_landing dt _ h).2.1⟩
      · obtain ⟨h1, h2, h3⟩ := verticalStep_airborne dt _ h
        rw [h3] at hg
        obtain ⟨hy, hvel⟩ := hh.grounded hg
        rw [hy, hvel] at h
        simp only [GRAVITY] at h
        have hdt : dt = 0 := by
          by_contra hne
          have : 0 < dt ^ 2 := by positivity
          apply h
          nlinarith
        rw [h1, h2, hy, hvel, hdt]
        simp
    · exact le_trans (verticalStep_energy_le dt _ hh.y_nonneg) hh.energy_le
  unfold updateMovement
  exact hv.congr_vertical (congrArg _ (firstPersonFollow_playerPosition _)) (firstPersonFollow_velocityY _)
    (firstPersonFollow_onGround _)

theorem verticalInv_updateThirdPersonCamera (dt : K) (s : State K) (hs : VerticalInv s) :
    VerticalInv (updateThirdPersonCamera dt s) :=
  hs.congr_vertical (congrArg _ (updateThirdPersonCamera_vertical dt s).1)
    (updateThirdPersonCamera_vertical dt s).2.1 (updateThirdPersonCamera_vertical dt s).2.2

theorem verticalInv_animate (P : MathPrims K) (d : K) (orbitPos orbitDir : Vector3 K)
    (s : State K) (hs : VerticalInv s) : VerticalInv (animate P d orbitPos orbitDir s) := by
  have hm := verticalInv_updateMovement P (frameDt d) s hs
  by_cases h : (updateMovement P (frameDt d) s).activeMode = "third-person"
  · simp only [animate, h, if_true]
    exact (verticalInv_updateThirdPersonCamera _ _ hm).congr_vertical rfl rfl rfl
  · simp only [animate, h, if_false]
    exact hm

theorem verticalInv_step (P : MathPrims K) (s : State K) (e : Event K) (hs : VerticalInv s) :
    VerticalInv (step P s e) := by
  cases e with
  | keydown code => exact verticalInv_keydown code s hs
  | keyup code =>
    exact hs.congr_vertical (congrArg _ (keyup_vertical code s).1) (keyup_vertical code s).2.1
      (keyup_vertical code s).2.2
  | resize w h => exact hs.congr_vertical rfl rfl rfl
  | frame d orbitPos orbitDir => exact verticalInv_animate P d orbitPos orbitDir s hs
  | mapLoaded mapY => exact hs.congr_vertical rfl rfl rfl
  | modelLoaded fbx boxMin boxMax => exact hs.congr_vertical rfl rfl rfl
  | pointerLook dir => exact hs.congr_vertical rfl rfl rfl
  | callSetMode mode =>
    exact hs.congr_vertical (congrArg _ (setMode_vertical mode s).1) (setMode_vertical mode s).2.1
      (setMode_vertical mode s).2.2
  | callUpdateMovement dt => exact verticalInv_updateMovement P dt s hs
  | callUpdateThirdPersonCamera dt => exact verticalInv_updateThirdPersonCamera dt s hs

theorem verticalInv_run (P : MathPrims K) (evs : List (Event K)) (s : State K)
    (hs : VerticalInv s) : VerticalInv (run P s evs) := by
  induction evs generalizing s with
  | nil => exact hs
  | cons e evs ih => exact ih (step P s e) (verticalInv_step P s e hs)

theorem updateMovement_energy_le (P : MathPrims K) (dt : K) (s : State K)
    (hy : 0 ≤ s.player.position.y) : energy (updateMovement P dt s) ≤ energy s := by
  have h1 : energy (updateMovement P dt s) = energy (verticalStep dt (horizontalStep P dt s)) := by
    unfold updateMovement energy
    rw [firstPersonFollow_playerPosition, firstPersonFollow_velocityY]
  have h2 : energy (horizontalStep P dt s) = energy s := by
    unfold energy
    rw [horizontalStep_y, horizontalStep_velocityY]
  rw [h1, ← h2]
  exact verticalStep_energy_le dt _ (by rw [horizontalStep_y]; exact hy)

end Vertical

/-! ## Auxiliary facts about the cameras and the mode -/

section Cameras

variable {K : Type} [LinearOrderedField K]

theorem setMode_aspects (mode : String) (s : State K) : aspects (setMode mode s) = aspects s := by
  unfold setMode
  split_ifs <;> rfl

theorem keydown_aspects (code : String) (s : State K) : aspects (keydown code s) = aspects s := by
  unfold keydown
  split_ifs <;> first | rfl | exact setMode_aspects _ s

theorem keyup_aspects (code : String) (s : State K) : aspects (keyup code s) = aspects s := by
  unfold keyup
  split_ifs <;> rfl

theorem horizontalStep_aspects (P : MathPrims K) (dt : K) (s : State K) :
    aspects (horizontalStep P dt s) = aspects s := by
  by_cases h : Vector3.lengthSq (moveSum P s) > 0 <;> simp [horizontalStep, h, aspects]

theorem verticalStep_aspects (dt : K) (s : State K) :
    aspects (verticalStep dt s) = aspects s := by
  by_cases h : s.player.position.y + (s.velocityY + GRAVITY * dt) * dt < 0 <;>
    simp [verticalStep, h, aspects]

theorem firstPersonFollow_aspects (s : State K) : aspects (firstPersonFollow s) = aspects s := by
  unfold firstPersonFollow
  split_ifs <;> rfl

theorem updateMovement_aspects (P : MathPrims K) (dt : K) (s : State K) :
    aspects (updateMovement P dt s) = aspects s := by
  unfold updateMovement
  rw [firstPersonFollow_aspects, verticalStep_aspects, horizontalStep_aspects]

theorem updateThirdPersonCamera_aspects (dt : K) (s : State K) :
    aspects (updateThirdPersonCamera dt s) = aspects s := by
  unfold updateThirdPersonCamera
  split_ifs <;> rfl

theorem animate_aspects (P : MathPrims K) (d : K) (orbitPos orbitDir : Vector3 K) (s : State K) :
    aspects (animate P d orbitPos orbitDir s) = aspects s := by
  by_cases h : (updateMovement P (frameDt d) s).activeMode = "third-person"
  · simp only [animate, h, if_true]
    exact (updateThirdPersonCamera_aspects _ _).trans (updateMovement_aspects P _ s)
  · simp only [animate, h, if_false]
    exact updateMovement_aspects P _ s

theorem horizontalStep_activeMode (P : MathPrims K) (dt : K) (s : State K) :
    (horizontalStep P dt s).activeMode = s.activeMode := by
  by_cases h : Vector3.lengthSq (moveSum P s) > 0 <;> simp [horizontalStep, h]

theorem verticalStep_activeMode (dt : K) (s : State K) :
    (verticalStep dt s).activeMode = s.activeMode := by
  by_cases h : s.player.position.y + (s.velocityY + GRAVITY * dt) * dt < 0 <;>
    simp [verticalStep, h]

theorem firstPersonFollow_activeMode (s : State K) :
    (firstPersonFollow s).activeMode = s.activeMode := by
  unfold firstPersonFollow
  split_ifs <;> rfl

theorem updateMovement_activeMode (P : MathPrims K) (dt : K) (s : State K) :
    (updateMovement P dt s).activeMode = s.activeMode := by
  unfold updateMovement
  rw [firstPersonFollow_activeMode, verticalStep_activeMode, horizontalStep_activeMode]

theorem updateThirdPersonCamera_activeMode (dt : K) (s : State K) :
    (updateThirdPersonCamera dt s).activeMode = s.activeMode := by
  unfold updateThirdPersonCamera
  split_ifs <;> rfl

theorem animate_activeMode (P : MathPrims K) (d : K) (orbitPos orbitDir : Vector3 K)
    (s : State K) : (animate P d orbitPos orbitDir s).activeMode = s.activeMode := by
  by_cases h : (updateMovement P (frameDt d) s).activeMode = "third-person"
  · simp only [animate, h, if_true]
    exact (updateThirdPersonCamera_activeMode _ _).trans (updateMovement_activeMode P _ s)
  · simp only [animate, h, if_false]
    exact updateMovement_activeMode P _ s

/-- An operation that leaves mode, active camera and orbit flag alone keeps
their agreement. -/
theorem ModeInv.congr_mode {s t : State K} (hs : ModeInv s) (hm : t.activeMode = s.activeMode)
    (hc : t.activeCamera = s.activeCamera) (ho : t.orbitControls.enabled = s.orbitControls.enabled) :
    ModeInv t := by
  refine ⟨?_, ?_, ?_, ?_⟩
  · rw [hm]; exact hs.mode
  · rw [hm, hc]; exact hs.first
  · rw [hm, hc]; exact hs.third
  · rw [hm, ho]; exact hs.orbit

theorem modeInv_init (w h : K) (dir3 : Vector3 K) : ModeInv (init w h dir3) := by
  refine ⟨?_, ?_, ?_, ?_⟩ <;> simp [init]

theorem modeInv_setMode (mode : String) (s : State K) (hs : ModeInv s) :
    ModeInv (setMode mode s) := by
  unfold setMode
  split_ifs with h1 h2
  · exact hs
  · refine ⟨?_, ?_, ?_, ?_⟩ <;> simp
  · refine ⟨?_, ?_, ?_, ?_⟩ <;> simp

theorem modeInv_keydown (code : String) (s : State K) (hs : ModeInv s) :
    ModeInv (keydown code s) := by
  unfold keydown
  split_ifs <;> first | exact modeInv_setMode _ s hs | exact hs.congr_mode rfl rfl rfl

theorem modeInv_keyup (code : String) (s : State K) (hs : ModeInv s) :
    ModeInv (keyup code s) := by
  unfold keyup
  split_ifs <;> exact hs.congr_mode rfl rfl rfl

theorem modeInv_updateMovement (P : MathPrims K) (dt : K) (s : State K) (hs : ModeInv s) :
    ModeInv (updateMovement P dt s) := by
  have h1 : ModeInv (horizontalStep P dt s) := by
    by_cases h : Vector3.lengthSq (moveSum P s) > 0
    · exact hs.congr_mode (by simp [horizontalStep, h]) (by simp [horizontalStep, h])
        (by simp [horizontalStep, h])
    · simpa [horizontalStep, h] using hs
  have h2 : ModeInv (verticalStep dt (horizontalStep P dt s)) := by
    by_cases h : (horizontalStep P dt s).player.position.y
        + ((horizontalStep P dt s).velocityY + GRAVITY * dt) * dt < 0
    · exact h1.congr_mode (by simp [verticalStep, h]) (by simp [verticalStep, h])
        (by simp [verticalStep, h])
    · exact h1.congr_mode (by simp [verticalStep, h]) (by simp [verticalStep, h])
        (by simp [verticalStep, h])
  unfold updateMovement firstPersonFollow
  split_ifs
  · exact h2.congr_mode rfl rfl rfl
  · exact h2

theorem modeInv_updateThirdPersonCamera (dt : K) (s : State K) (hs : ModeInv s) :
    ModeInv (updateThirdPersonCamera dt s) := by
  unfold updateThirdPersonCamera
  split_ifs <;> exact hs.congr_mode rfl rfl rfl

theorem modeInv_animate (P : MathPrims K) (d : K) (orbitPos orbitDir : Vector3 K)
    (s : State K) (hs : ModeInv s) : ModeInv (animate P d orbitPos orbitDir s) := by
  have hm := modeInv_updateMovement P (frameDt d) s hs
  by_cases h : (updateMovement P (frameDt d) s).activeMode = "third-person"
  · simp only [animate, h, if_true]
    exact (modeInv_updateThirdPersonCamera _ _ hm).congr_mode rfl rfl rfl
  · simp only [animate, h, if_false]
    exact hm

theorem modeInv_step (P : MathPrims K) (s : State K) (e : Event K) (hs : ModeInv s) :
    ModeInv (step P s e) := by
  cases e with
  | keydown code => exact modeInv_keydown code s hs
  | keyup code => exact modeInv_keyup code s hs
  | resize w h => exact hs.congr_mode rfl rfl rfl
  | frame d orbitPos orbitDir => exact modeInv_animate P d orbitPos orbitDir s hs
  | mapLoaded mapY => exact hs.congr_mode rfl rfl rfl
  | modelLoaded fbx boxMin boxMax => exact hs.congr_mode rfl rfl rfl
  | pointerLook dir => exact hs.congr_mode rfl rfl rfl
  | callSetMode mode => exact modeInv_setMode mode s hs
  | callUpdateMovement dt => exact modeInv_updateMovement P dt s hs
  | callUpdateThirdPersonCamera dt => exact modeInv_updateThirdPersonCamera dt s hs

theorem modeInv_run (P : MathPrims K) (evs : List (Event K)) (s : State K) (hs : ModeInv s) :
    ModeInv (run P s evs) := by
  induction evs generalizing s with
  | nil => exact hs
  | cons e evs ih => exact ih (step P s e) (modeInv_step P s e hs)

end Cameras

/-! ## Auxiliary facts about the horizontal motion, over the reals -/

section Horizontal

theorem normalize_lengthSq (P : MathPrims ℝ) (hP : P.sqrt = Real.sqrt) (v : Vector3 ℝ)
    (hv : 0 < Vector3.lengthSq v) : Vector3.lengthSq (Vector3.normalize P v) = 1 := by
  have hl : 0 < Real.sqrt (Vector3.lengthSq v) := Real.sqrt_pos.2 hv
  have hsq : Real.sqrt (Vector3.lengthSq v) * Real.sqrt (Vector3.lengthSq v)
      = Vector3.lengthSq v := Real.mul_self_sqrt hv.le
  have hne : Real.sqrt (Vector3.lengthSq v) ≠ 0 := hl.ne'
  have hc : 0 < Real.sqrt (Vector3.lengthSq v) ∨ Real.sqrt (Vector3.lengthSq v) < 0 :=
    Or.inl hl
  simp only [Vector3.normalize, Vector3.length, hP, if_pos hc, Vector3.multiplyScalar]
  generalize Real.sqrt (Vector3.lengthSq v) = l at hsq hne
  simp only [Vector3.lengthSq] at hsq ⊢
  field_simp
  linarith [hsq]

theorem normalize_of_unit (P : MathPrims ℝ) (hP : P.sqrt = Real.sqrt) (v : Vector3 ℝ)
    (hv : Vector3.lengthSq v = 1) : Vector3.normalize P v = v := by
  simp [Vector3.normalize, Vector3.length, hP, hv, Vector3.multiplyScalar]

theorem moveSum_lengthSq_pos (P : MathPrims ℝ) (hP : P.sqrt = Real.sqrt) (s : State ℝ)
    (hdir : s.activeCameraObj.worldDirection.x ≠ 0 ∨ s.activeCameraObj.worldDirection.z ≠ 0)
    (hkeys : s.movement.forward ≠ s.movement.backward ∨ s.movement.left ≠ s.movement.right) :
    0 < Vector3.lengthSq (moveSum P s) := by
  have hd : 0 < Vector3.lengthSq { s.activeCameraObj.worldDirection with y := 0 } := by
    simp only [Vector3.lengthSq]
    rcases hdir with h | h
    · nlinarith [mul_self_pos.2 h, mul_self_nonneg s.activeCameraObj.worldDirection.z]
    · nlinarith [mul_self_pos.2 h, mul_self_nonneg s.activeCameraObj.worldDirection.x]
  have hf1 := normalize_lengthSq P hP _ hd
  have hfy : (Vector3.normalize P { s.activeCameraObj.worldDirection with y := 0 }).y = 0 :=
    normalize_y P _ rfl
  have hc1 : Vector3.lengthSq (Vector3.crossVectors
      (Vector3.normalize P { s.activeCameraObj.worldDirection with y := 0 }) ⟨0, 1, 0⟩) = 1 := by
    simp only [Vector3.lengthSq, Vector3.crossVectors, hfy] at hf1 ⊢
    nlinarith [hf1]
  have hr := normalize_of_unit P hP _ hc1
  simp only [moveSum, hr]
  simp only [Vector3.lengthSq, hfy] at hf1
  cases hfw : s.movement.forward <;> cases hbw : s.movement.backward <;>
    cases hl : s.movement.left <;> cases hrt : s.movement.right <;>
    simp only [hfw, hbw, hl, hrt, ne_eq, not_true_eq_false, or_self] at hkeys <;>
    simp only [Vector3.lengthSq, Vector3.add, Vector3.sub, Vector3.crossVectors, hfy, if_true,
      if_false, Bool.false_eq_true] <;>
    nlinarith [hf1]

theorem verticalStep_xz (dt : ℝ) (s : State ℝ) :
    (verticalStep dt s).player.position.x = s.player.position.x ∧
      (verticalStep dt s).player.position.z = s.player.position.z := by
  by_cases h : s.player.position.y + (s.velocityY + GRAVITY * dt) * dt < 0 <;>
    simp [verticalStep, h]

theorem updateMovement_xz (P : MathPrims ℝ) (dt : ℝ) (s : State ℝ)
    (hpos : 0 < Vector3.lengthSq (moveSum P s)) :
    (updateMovement P dt s).player.position.x - s.player.position.x
        = (Vector3.normalize P (moveSum P s)).x * (speed s.movement * dt) ∧
      (updateMovement P dt s).player.position.z - s.player.position.z
        = (Vector3.normalize P (moveSum P s)).z * (speed s.movement * dt) := by
  unfold updateMovement
  rw [firstPersonFollow_playerPosition, (verticalStep_xz dt _).1, (verticalStep_xz dt _).2]
  simp [horizontalStep, hpos, Vector3.add, Vector3.multiplyScalar]

end Horizontal

/-! ## The claims -/

section Claims

variable {K : Type} [LinearOrderedField K]

/-- C1 as stated fails in double arithmetic: `updateMovement(NaN)` from the
start-up state leaves the height NaN, and so does `updateMovement(1e308)` with
the forward key held (`speed * dt` overflows, `0 * Infinity` is NaN); a later
frame does not repair it.  NaN is not `>= 0`. -/
theorem C1_height_nan_counterexample :
    ((updateMovement f64Prims F64.nan startState64).player.position.y = F64.nan ∧
        ¬ (0 : F64) ≤ (updateMovement f64Prims F64.nan startState64).player.position.y) ∧
      ((run f64Prims startState64
          [Event.keydown "KeyW", Event.callUpdateMovement 1e308]).player.position.y = F64.nan ∧
        ¬ (0 : F64) ≤ (run f64Prims startState64
          [Event.keydown "KeyW", Event.callUpdateMovement 1e308]).player.position.y) ∧
      (run f64Prims startState64
          [Event.keydown "KeyW", Event.callUpdateMovement 1e308,
            Event.callUpdateMovement 0.016]).player.position.y = F64.nan := by
  decide!

/-- C1, amended: the player's height is never below zero.  In double
arithmetic, in every state reached from the initial state by any sequence of
events, and right after `updateMovement dt` from every state and for every
`dt`, the test `player.position.y < 0` is false: the height is NaN or at
least 0.  In exact arithmetic (any ordered field) the height is at least 0 in
both cases. -/
theorem C1_height_never_below_zero (P : MathPrims F64) :
    (∀ (w h : F64) (dir3 : Vector3 F64) (evs : List (Event F64)),
        ¬ (run P (init w h dir3) evs).player.position.y < 0 ∧
          ((run P (init w h dir3) evs).player.position.y = F64.nan ∨
            0 ≤ (run P (init w h dir3) evs).player.position.y)) ∧
      (∀ (s : State F64) (dt : F64),
        ¬ (updateMovement P dt s).player.position.y < 0 ∧
          ((updateMovement P dt s).player.position.y = F64.nan ∨
            0 ≤ (updateMovement P dt s).player.position.y)) ∧
      (∀ (R : Type) [LinearOrderedField R] (Q : MathPrims R),
        (∀ (w h : R) (dir3 : Vector3 R) (evs : List (Event R)),
          0 ≤ (run Q (init w h dir3) evs).player.position.y) ∧
        (∀ (s : State R) (dt : R), 0 ≤ (updateMovement Q dt s).player.position.y)) := by
  refine ⟨fun w h dir3 evs => ?_, fun s dt => ?_, fun R _ Q => ?_⟩
  · have h := run_y_not_lt F64.zero_not_lt_zero P evs (init w h dir3) F64.zero_not_lt_zero
    exact ⟨h, F64.nan_or_nonneg_of_not_lt _ h⟩
  · have h := updateMovement_y_not_lt F64.zero_not_lt_zero P dt s
    exact ⟨h, F64.nan_or_nonneg_of_not_lt _ h⟩
  · exact ⟨fun w h dir3 evs => (verticalInv_run Q evs _ (verticalInv_init w h dir3)).y_nonneg,
      fun s dt => updateMovement_y_nonneg Q dt s⟩

/-- C10: jump height is bounded.  In every state reachable from the initial
state the height is at most `JUMP_POWER^2 / (2 * |GRAVITY|)`, which is
`64 / 50 = 1.28`; in such a state `onGround` implies height 0 and vertical
velocity 0, and a frame update with any `dt` does not increase
`y + velocityY^2 / 50`. -/
theorem C10_jump_height_bounded (P : MathPrims K) (w h : K) (dir3 : Vector3 K)
    (evs : List (Event K)) :
    (run P (init w h dir3) evs).player.position.y
        ≤ (JUMP_POWER : K) ^ 2 / (2 * |(GRAVITY : K)|) ∧
      (JUMP_POWER : K) ^ 2 / (2 * |(GRAVITY : K)|) = 64 / 50 ∧
      ((64 : K) / 50 = 1.28) ∧
      ((run P (init w h dir3) evs).onGround = true →
        (run P (init w h dir3) evs).player.position.y = 0 ∧
          (run P (init w h dir3) evs).velocityY = 0) ∧
      (∀ dt : K, energy (updateMovement P dt (run P (init w h dir3) evs))
        ≤ energy (run P (init w h dir3) evs)) := by
  have hinv := verticalInv_run P evs _ (verticalInv_init w h dir3)
  have hc : (JUMP_POWER : K) ^ 2 / (2 * |(GRAVITY : K)|) = 64 / 50 := by
    simp only [JUMP_POWER, GRAVITY, abs_neg]
    rw [abs_of_pos (by norm_num : (0 : K) < 25)]
    norm_num
  refine ⟨?_, hc, by norm_num, hinv.grounded, fun dt => updateMovement_energy_le P dt _ hinv.y_nonneg⟩
  rw [hc]
  have h1 := hinv.energy_le
  have h2 : 0 ≤ (run P (init w h dir3) evs).velocityY ^ 2 / 50 := by positivity
  unfold energy at h1
  linarith

/-- C2: camera aspect equals window aspect after resize.  For a window of
size `w` by `h` with `h` non-zero, after `resize` both cameras have aspect
`w / h` (the number whose product with `h` is `w`), and none of the key
handlers, `setMode`, `updateMovement`, `updateThirdPersonCamera`, `animate`,
the load callbacks and the pointer-look handler changes either aspect. -/
theorem C2_aspect_after_resize (P : MathPrims K) (s : State K) (w h : K) (hh : h ≠ 0) :
    ((resize w h s).thirdPersonCamera.aspect = w / h ∧
        (resize w h s).firstPersonCamera.aspect = w / h ∧
        (resize w h s).thirdPersonCamera.aspect * h = w ∧
        (resize w h s).firstPersonCamera.aspect * h = w) ∧
      (∀ code, aspects (keydown code s) = aspects s) ∧
      (∀ code, aspects (keyup code s) = aspects s) ∧
      (∀ mode, aspects (setMode mode s) = aspects s) ∧
      (∀ dt, aspects (updateMovement P dt s) = aspects s) ∧
      (∀ dt, aspects (updateThirdPersonCamera dt s) = aspects s) ∧
      (∀ d orbitPos orbitDir, aspects (animate P d orbitPos orbitDir s) = aspects s) ∧
      (∀ mapY, aspects (onMapLoaded mapY s) = aspects s) ∧
      (∀ fbx boxMin boxMax, aspects (onModelLoaded P fbx boxMin boxMax s) = aspects s) ∧
      (∀ dir, aspects (pointerLook dir s) = aspects s) := by
  refine ⟨⟨rfl, rfl, ?_, ?_⟩, fun code => keydown_aspects code s,
    fun code => keyup_aspects code s, fun mode => setMode_aspects mode s,
    fun dt => updateMovement_aspects P dt s, fun dt => updateThirdPersonCamera_aspects dt s,
    fun d orbitPos orbitDir => animate_aspects P d orbitPos orbitDir s, fun _ => rfl,
    fun _ _ _ => rfl, fun _ => rfl⟩
  · show w / h * h = w
    exact div_mul_cancel₀ w hh
  · show w / h * h = w
    exact div_mul_cancel₀ w hh

/-- C3: the frame delta time is clamped.  For every clock delta `d`, `animate`
runs `updateMovement` and (in third-person mode) `updateThirdPersonCamera`
with `dt = min d 0.05`; that `dt` never exceeds 0.05 and equals `d` whenever
`d ≤ 0.05`. -/
theorem C3_frame_dt_clamped (P : MathPrims K) (d : K) (orbitPos orbitDir : Vector3 K)
    (s : State K) :
    animate P d orbitPos orbitDir s =
        (if (updateMovement P (min d 0.05) s).activeMode = "third-person" then
          orbitControlsUpdate orbitPos orbitDir
            (updateThirdPersonCamera (min d 0.05) (updateMovement P (min d 0.05) s))
        else updateMovement P (min d 0.05) s) ∧
      frameDt d = min d 0.05 ∧ frameDt d ≤ 0.05 ∧ (d ≤ 0.05 → frameDt d = d) :=
  ⟨rfl, rfl, min_le_right d _, fun h => min_eq_left h⟩

/-- C4: the camera mode is a two-state machine driven by two keys.  From
every state a keydown of Digit1 leaves the mode "first-person", a keydown of
Digit3 leaves it "third-person", and a keydown of any other code, every
keyup and every frame update (`animate`, `updateMovement`,
`updateThirdPersonCamera`) leave it unchanged; in every state reachable from
the initial state the mode is one of the two values. -/
theorem C4_mode_two_state_machine (P : MathPrims K) (s : State K) :
    (keydown "Digit1" s).activeMode = "first-person" ∧
      (keydown "Digit3" s).activeMode = "third-person" ∧
      (∀ code, code ≠ "Digit1" → code ≠ "Digit3" →
        (keydown code s).activeMode = s.activeMode) ∧
      (∀ code, (keyup code s).activeMode = s.activeMode) ∧
      (∀ d orbitPos orbitDir, (animate P d orbitPos orbitDir s).activeMode = s.activeMode) ∧
      (∀ dt, (updateMovement P dt s).activeMode = s.activeMode) ∧
      (∀ dt, (updateThirdPersonCamera dt s).activeMode = s.activeMode) ∧
      (∀ (w h : K) (dir3 : Vector3 K) (evs : List (Event K)),
        (run P (init w h dir3) evs).activeMode = "first-person" ∨
          (run P (init w h dir3) evs).activeMode = "third-person") := by
  refine ⟨?_, ?_, ?_, ?_, fun d orbitPos orbitDir => animate_activeMode P d orbitPos orbitDir s,
    fun dt => updateMovement_activeMode P dt s,
    fun dt => updateThirdPersonCamera_activeMode dt s,
    fun w h dir3 evs => (modeInv_run P evs _ (modeInv_init w h dir3)).mode⟩
  · simp only [keydown, if_true, setMode]
    split_ifs with h <;> first | exact h | rfl
  · have h13 : ¬ ("Digit3" = "Digit1") := by decide
    have hm : ¬ ("third-person" = "first-person") := by decide
    simp only [keydown, h13, if_false, if_true, setMode, hm]
    split_ifs with h <;> first | exact h | rfl
  · intro code h1 h3
    simp only [keydown, h1, h3, if_false]
    split_ifs <;> rfl
  · intro code
    unfold keyup
    split_ifs <;> rfl

/-- C5: the mode, the active camera and the orbit-control flag always agree.
In every state reachable from the initial state by any events (key events,
`setMode` with any string, load callbacks, frames, resizes), `activeCamera`
is the first-person camera exactly when the mode is "first-person", the
third-person camera exactly when the mode is "third-person", and
`orbitControls.enabled` is true exactly when the mode is "third-person". -/
theorem C5_mode_camera_orbit_agree (P : MathPrims K) (w h : K) (dir3 : Vector3 K)
    (evs : List (Event K)) :
    ((run P (init w h dir3) evs).activeCamera = CameraRef.firstPersonCamera ↔
        (run P (init w h dir3) evs).activeMode = "first-person") ∧
      ((run P (init w h dir3) evs).activeCamera = CameraRef.thirdPersonCamera ↔
        (run P (init w h dir3) evs).activeMode = "third-person") ∧
      ((run P (init w h dir3) evs).orbitControls.enabled = true ↔
        (run P (init w h dir3) evs).activeMode = "third-person") :=
  have hinv := modeInv_run P evs _ (modeInv_init w h dir3)
  ⟨hinv.first, hinv.third, hinv.orbit⟩

/-- C7 as stated fails in double arithmetic: with the camera at height 4, the
player at height 0.0775 and `previousPlayerPos` at height 0, in third-person
mode past the first frame, the camera's offset from `previousPlayerPos` is 4
before the call and 3.9999999999999996 after it. -/
theorem C7_offset_drift_counterexample :
    driftState.activeMode = "third-person" ∧ driftState.isFirstFrame = false ∧
      driftState.thirdPersonCamera.position.y - driftState.previousPlayerPos.y = 4 ∧
      (updateThirdPersonCamera 0.016 driftState).thirdPersonCamera.position.y
          - (updateThirdPersonCamera 0.016 driftState).previousPlayerPos.y
        = 3.9999999999999996 ∧
      (updateThirdPersonCamera 0.016 driftState).thirdPersonCamera.position.y
          - (updateThirdPersonCamera 0.016 driftState).previousPlayerPos.y
        ≠ driftState.thirdPersonCamera.position.y - driftState.previousPlayerPos.y := by
  decide!

/-- C7, amended: third-person camera follow adds the player's movement, as
double arithmetic computes it, to the camera.  In double arithmetic, in
third-person mode past the first frame, `updateThirdPersonCamera` sets each
coordinate of the camera position to `camera + (player - previous)` (two
rounded operations), sets the orbit target
to `(player.x, player.y + 1.5, player.z)` and `previousPlayerPos` to
`player.position`, and changes nothing else; outside third-person mode it
changes nothing; on the first third-person call it sets the target and
`previousPlayerPos` the same way, clears `isFirstFrame` and does not move the
camera.  In exact arithmetic (any ordered field) the follow step leaves each
coordinate of `camera - previousPlayerPos` the same. -/
theorem C7_camera_follow_offset_tracking (dt : F64) (s : State F64) :
    (s.activeMode = "third-person" → s.isFirstFrame = false →
      updateThirdPersonCamera dt s =
        { s with
          thirdPersonCamera.position :=
            ⟨s.thirdPersonCamera.position.x + (s.player.position.x - s.previousPlayerPos.x),
              s.thirdPersonCamera.position.y + (s.player.position.y - s.previousPlayerPos.y),
              s.thirdPersonCamera.position.z + (s.player.position.z - s.previousPlayerPos.z)⟩
          orbitControls.target :=
            ⟨s.player.position.x, s.player.position.y + 1.5, s.player.position.z⟩
          previousPlayerPos := s.player.position }) ∧
      (s.activeMode ≠ "third-person" → updateThirdPersonCamera dt s = s) ∧
      (s.activeMode = "third-person" → s.isFirstFrame = true →
        updateThirdPersonCamera dt s =
          { s with
            orbitControls.target :=
              ⟨s.player.position.x, s.player.position.y + 1.5, s.player.position.z⟩
            previousPlayerPos := s.player.position
            isFirstFrame := false }) ∧
      (∀ (R : Type) [LinearOrderedField R] (dt : R) (t : State R),
        t.activeMode = "third-person" → t.isFirstFrame = false →
          (updateThirdPersonCamera dt t).thirdPersonCamera.position.x
              - (updateThirdPersonCamera dt t).previousPlayerPos.x
            = t.thirdPersonCamera.position.x - t.previousPlayerPos.x ∧
          (updateThirdPersonCamera dt t).thirdPersonCamera.position.y
              - (updateThirdPersonCamera dt t).previousPlayerPos.y
            = t.thirdPersonCamera.position.y - t.previousPlayerPos.y ∧
          (updateThirdPersonCamera dt t).thirdPersonCamera.position.z
              - (updateThirdPersonCamera dt t).previousPlayerPos.z
            = t.thirdPersonCamera.position.z - t.previousPlayerPos.z) := by
  refine ⟨fun hm hf => ?_, fun hm => ?_, fun hm hf => ?_, fun R _ dt t hm hf => ?_⟩
  · simp [updateThirdPersonCamera, hm, hf, Vector3.add, Vector3.sub]
  · simp [updateThirdPersonCamera, hm]
  · simp [updateThirdPersonCamera, hm, hf]
  · simp only [updateThirdPersonCamera, hm, hf, Vector3.add, Vector3.sub, ne_eq,
      not_true_eq_false, if_false, Bool.false_eq_true]
    refine ⟨?_, ?_, ?_⟩ <;> ring

/-- C9: a jump can only start from the ground.  A keydown of Space when
`onGround` is false leaves the whole state unchanged; when `onGround` is true
it sets `velocityY` to `JUMP_POWER = 8` and `onGround` to false and changes no
other part of the state. -/
theorem C9_jump_only_from_ground (s : State K) :
    (s.onGround = false → keydown "Space" s = s) ∧
      (s.onGround = true → keydown "Space" s = { s with velocityY := 8, onGround := false }) ∧
      (JUMP_POWER : K) = 8 := by
  have h : keydown "Space" s
      = if s.onGround then { s with velocityY := JUMP_POWER, onGround := false } else s := by
    simp [keydown]
  refine ⟨fun hg => ?_, fun hg => ?_, rfl⟩
  · rw [h, hg]; simp
  · rw [h, hg]; simp [JUMP_POWER]

/-- C8 as stated fails in double arithmetic, `dt = 0.5` and the forward key
held throughout.  With the camera facing along `(1e-170, -1, 0)`, whose
horizontal part is not zero, the squared length underflows to zero,
`length() || 1` leaves the direction unnormalised and `updateMovement` makes
no horizontal step at all, where `speed * dt` is 1.9.  With the camera facing
along the unit vector `(0, 0, -1)` the player's z goes from -38 to -39.9, a
step of length 1.8999999999999986; along `(3, -1, 4)` the step has length
1.9000000000000028 (`Math.sqrt` of the sum of the squared coordinate
differences); neither is 1.9.  With `dt = 1e308` the horizontal step makes
the height NaN. -/
theorem C8_speed_counterexample :
    ((0 : F64) ≤ 0.5 ∧ 0 < steepState.activeCameraObj.worldDirection.x ∧
        steepState.movement.forward ≠ steepState.movement.backward ∧
        (updateMovement f64Prims 0.5 steepState).player.position.x
          = steepState.player.position.x ∧
        (updateMovement f64Prims 0.5 steepState).player.position.z
          = steepState.player.position.z ∧
        speed steepState.movement * 0.5 = (1.9 : F64) ∧ (1.9 : F64) ≠ 0) ∧
      (walkingState64.activeCameraObj.worldDirection.z < 0 ∧
        walkingState64.movement.forward ≠ walkingState64.movement.backward ∧
        (updateMovement f64Prims 0.5 walkingState64).player.position.x
          = walkingState64.player.position.x ∧
        walkingState64.player.position.z = -38 ∧
        (updateMovement f64Prims 0.5 walkingState64).player.position.z = -39.9 ∧
        (-38 : F64) - (-39.9) = 1.8999999999999986 ∧
        speed walkingState64.movement * 0.5 = (1.9 : F64) ∧
        (1.8999999999999986 : F64) ≠ 1.9) ∧
      (F64.sqrt
            (((updateMovement f64Prims 0.5 (walkingState : State F64)).player.position.x
                  - (walkingState : State F64).player.position.x)
                * ((updateMovement f64Prims 0.5 (walkingState : State F64)).player.position.x
                  - (walkingState : State F64).player.position.x)
              + ((updateMovement f64Prims 0.5 (walkingState : State F64)).player.position.z
                  - (walkingState : State F64).player.position.z)
                * ((updateMovement f64Prims 0.5 (walkingState : State F64)).player.position.z
                  - (walkingState : State F64).player.position.z))
          = 1.9000000000000028 ∧
        (1.9000000000000028 : F64) ≠ 1.9) ∧
      (horizontalStep f64Prims 1e308 walkingState64).player.position.y = F64.nan ∧
      walkingState64.player.position.y = 0 := by
  decide!

/-- C8, amended: in exact real arithmetic (`sqrt` the real square root)
horizontal movement has constant speed in every direction.  For `dt ≥ 0`, an
active-camera direction with non-zero horizontal part and direction keys that
do not cancel, the summed move vector is non-zero and the displacement
`updateMovement dt` makes in the x-z plane has length exactly `speed * dt`,
where `speed` is 3.8 without sprint and `3.8 * 1.6 = 6.08` with sprint; the
horizontal step leaves the height unchanged.  (In double arithmetic this
holds only up to rounding and fails outright when the squared horizontal
length of the direction underflows or `speed * dt` overflows.) -/
theorem C8_constant_horizontal_speed (P : MathPrims ℝ) (hP : P.sqrt = Real.sqrt)
    (s : State ℝ) (dt : ℝ) (hdt : 0 ≤ dt)
    (hdir : s.activeCameraObj.worldDirection.x ≠ 0 ∨ s.activeCameraObj.worldDirection.z ≠ 0)
    (hkeys : s.movement.forward ≠ s.movement.backward ∨ s.movement.left ≠ s.movement.right) :
    0 < Vector3.lengthSq (moveSum P s) ∧
      Real.sqrt (((updateMovement P dt s).player.position.x - s.player.position.x) ^ 2
          + ((updateMovement P dt s).player.position.z - s.player.position.z) ^ 2)
        = speed s.movement * dt ∧
      (speed s.movement = if s.movement.sprint then (3.8 * 1.6 : ℝ) else 3.8) ∧
      ((3.8 * 1.6 : ℝ) = 6.08) ∧
      (horizontalStep P dt s).player.position.y = s.player.position.y := by
  have hpos := moveSum_lengthSq_pos P hP s hdir hkeys
  have hspeed : speed s.movement = if s.movement.sprint then (3.8 * 1.6 : ℝ) else 3.8 := by
    unfold speed MOVEMENT_SPEED SPRINT_MULTIPLIER
    cases s.movement.sprint <;> simp
  have hs0 : (0 : ℝ) ≤ speed s.movement := by
    rw [hspeed]
    split_ifs <;> norm_num
  refine ⟨hpos, ?_, hspeed, by norm_num, horizontalStep_y P dt s⟩
  obtain ⟨hx, hz⟩ := updateMovement_xz P dt s hpos
  have hn := normalize_lengthSq P hP _ hpos
  have hny : (Vector3.normalize P (moveSum P s)).y = 0 := normalize_y P _ (moveSum_y P s)
  simp only [Vector3.lengthSq, hny] at hn
  rw [hx, hz]
  have hk : 0 ≤ speed s.movement * dt := mul_nonneg hs0 hdt
  have : ((Vector3.normalize P (moveSum P s)).x * (speed s.movement * dt)) ^ 2
      + ((Vector3.normalize P (moveSum P s)).z * (speed s.movement * dt)) ^ 2
      = (speed s.movement * dt) ^ 2 := by
    nlinarith [hn]
  rw [this, Real.sqrt_sq hk]

/-- C2 at a concrete input: resizing the start-up state to 1024 by 768. -/
theorem C2_aspect_after_resize_witness :
    (768 : ℚ) ≠ 0 ∧
      (resize 1024 768 (startState : State ℚ)).thirdPersonCamera.aspect * 768 = 1024 ∧
      (resize 1024 768 (startState : State ℚ)).firstPersonCamera.aspect * 768 = 1024 :=
  ⟨by norm_num,
    (C2_aspect_after_resize ratPrims startState 1024 768 (by norm_num)).1.2.2.1,
    (C2_aspect_after_resize ratPrims startState 1024 768 (by norm_num)).1.2.2.2⟩

/-- C3 at a concrete input: a clock delta of one hundredth of a second. -/
theorem C3_frame_dt_clamped_witness :
    (1 / 100 : ℚ) ≤ 0.05 ∧ frameDt (1 / 100 : ℚ) = 1 / 100 :=
  ⟨by norm_num,
    (C3_frame_dt_clamped ratPrims (1 / 100) ⟨0, 0, 0⟩ ⟨0, 0, 0⟩ startState).2.2.2
      (by norm_num)⟩

/-- C4 at a concrete input: a keydown of KeyW in the start-up state. -/
theorem C4_mode_two_state_machine_witness :
    "KeyW" ≠ "Digit1" ∧ "KeyW" ≠ "Digit3" ∧
      (keydown "KeyW" (startState : State ℚ)).activeMode = (startState : State ℚ).activeMode :=
  ⟨by decide, by decide,
    (C4_mode_two_state_machine ratPrims startState).2.2.1 "KeyW" (by decide) (by decide)⟩

/-- C7 at concrete inputs: a follow step, a call in first-person mode and the
first third-person call in double arithmetic, and a follow step over the
rationals. -/
theorem C7_camera_follow_offset_tracking_witness :
    (followState64.activeMode = "third-person" ∧ followState64.isFirstFrame = false ∧
        (updateThirdPersonCamera 0.016 followState64).thirdPersonCamera.position
          = ⟨39, 4, -32⟩) ∧
      ((keydown "Digit1" startState64).activeMode ≠ "third-person" ∧
        updateThirdPersonCamera 0.016 (keydown "Digit1" startState64)
          = keydown "Digit1" startState64) ∧
      (startState64.activeMode = "third-person" ∧ startState64.isFirstFrame = true ∧
        (updateThirdPersonCamera 0.016 startState64).orbitControls.target = ⟨38, 1.5, -38⟩) ∧
      ((followState : State ℚ).activeMode = "third-person" ∧
        (followState : State ℚ).isFirstFrame = false ∧
        (updateThirdPersonCamera (1 / 60) (followState : State ℚ)).thirdPersonCamera.position.x
            - (updateThirdPersonCamera (1 / 60) (followState : State ℚ)).previousPlayerPos.x
          = (followState : State ℚ).thirdPersonCamera.position.x
            - (followState : State ℚ).previousPlayerPos.x) := by
  have hfirst : (keydown "Digit1" startState64).activeMode ≠ "third-person" := by decide!
  refine ⟨⟨rfl, rfl, ?_⟩, ⟨hfirst, ?_⟩, ⟨rfl, rfl, ?_⟩, ⟨rfl, rfl, ?_⟩⟩
  · rw [(C7_camera_follow_offset_tracking 0.016 followState64).1 rfl rfl]
    decide!
  · exact (C7_camera_follow_offset_tracking 0.016 (keydown "Digit1" startState64)).2.1 hfirst
  · rw [(C7_camera_follow_offset_tracking 0.016 startState64).2.2.1 rfl rfl]
    decide!
  · exact ((C7_camera_follow_offset_tracking 0.016 startState64).2.2.2 ℚ (1 / 60) followState
      rfl rfl).1

/-- C8 at a concrete input: the forward key held for half a second, the
camera facing along `(3, -1, 4)`. -/
theorem C8_constant_horizontal_speed_witness :
    (MathPrims.mk Real.sqrt (fun _ _ => 0) 0).sqrt = Real.sqrt ∧ (0 : ℝ) ≤ 1 / 2 ∧
      ((walkingState : State ℝ).activeCameraObj.worldDirection.x ≠ 0 ∨
        (walkingState : State ℝ).activeCameraObj.worldDirection.z ≠ 0) ∧
      ((walkingState : State ℝ).movement.forward ≠ (walkingState : State ℝ).movement.backward ∨
        (walkingState : State ℝ).movement.left ≠ (walkingState : State ℝ).movement.right) ∧
      Real.sqrt (((updateMovement (MathPrims.mk Real.sqrt (fun _ _ => 0) 0) (1 / 2)
              (walkingState : State ℝ)).player.position.x
            - (walkingState : State ℝ).player.position.x) ^ 2
          + ((updateMovement (MathPrims.mk Real.sqrt (fun _ _ => 0) 0) (1 / 2)
              (walkingState : State ℝ)).player.position.z
            - (walkingState : State ℝ).player.position.z) ^ 2)
        = speed (walkingState : State ℝ).movement * (1 / 2) :=
  have hdir : (walkingState : State ℝ).activeCameraObj.worldDirection.x ≠ 0 ∨
      (walkingState : State ℝ).activeCameraObj.worldDirection.z ≠ 0 :=
    Or.inl (by simp [walkingState, startState, keydown, init, State.activeCameraObj])
  have hkeys : (walkingState : State ℝ).movement.forward
        ≠ (walkingState : State ℝ).movement.backward ∨
      (walkingState : State ℝ).movement.left ≠ (walkingState : State ℝ).movement.right :=
    Or.inl (by simp [walkingState, startState, keydown, init])
  ⟨rfl, by norm_num, hdir, hkeys,
    (C8_constant_horizontal_speed (MathPrims.mk Real.sqrt (fun _ _ => 0) 0) rfl walkingState
      (1 / 2) (by norm_num) hdir hkeys).2.1⟩

/-- C9 at concrete inputs: Space pressed on the ground, and pressed again in
the air. -/
theorem C9_jump_only_from_ground_witness :
    ((keydown "Space" (startState : State ℚ)).onGround = false ∧
        keydown "Space" (keydown "Space" (startState : State ℚ)) = keydown "Space" startState) ∧
      ((startState : State ℚ).onGround = true ∧
        keydown "Space" (startState : State ℚ)
          = { (startState : State ℚ) with velocityY := 8, onGround := false }) :=
  have hair : (keydown "Space" (startState : State ℚ)).onGround = false := by
    simp [keydown, startState, init]
  ⟨⟨hair, (C9_jump_only_from_ground (keydown "Space" startState)).1 hair⟩,
    ⟨rfl, (C9_jump_only_from_ground startState).2.1 rfl⟩⟩

/-- C10 at concrete inputs: before any event the player is on the ground, at
height 0 and at rest; after a jump and a frame of a tenth of a second the
height is within the bound. -/
theorem C10_jump_height_bounded_witness :
    ((run ratPrims (init 800 600 ⟨3, -1, 4⟩) []).onGround = true ∧
        (run ratPrims (init 800 600 ⟨3, -1, 4⟩) []).player.position.y = 0 ∧
        (run ratPrims (init 800 600 ⟨3, -1, 4⟩) []).velocityY = 0) ∧
      (run ratPrims (init 800 600 ⟨3, -1, 4⟩)
          [Event.keydown "Space", Event.callUpdateMovement (1 / 10)]).player.position.y
        ≤ (JUMP_POWER : ℚ) ^ 2 / (2 * |(GRAVITY : ℚ)|) :=
  ⟨⟨rfl, (C10_jump_height_bounded ratPrims 800 600 ⟨3, -1, 4⟩ []).2.2.2.1 rfl⟩,
    (C10_jump_height_bounded ratPrims 800 600 ⟨3, -1, 4⟩
      [Event.keydown "Space", Event.callUpdateMovement (1 / 10)]).1⟩

/-- C6, evaluated where the code departs from it: Digit1 is pressed before
the character rig has loaded, then the load callback runs.  The mode is
"first-person", the rig is loaded, and it is visible. -/
theorem C6_rig_visible_in_first_person :
    (run ratPrims startState
        [Event.keydown "Digit1",
          Event.modelLoaded loadedRig ⟨0, 0, 0⟩ ⟨1, 2, 1⟩]).activeMode = "first-person" ∧
      (run ratPrims startState
        [Event.keydown "Digit1",
          Event.modelLoaded loadedRig ⟨0, 0, 0⟩ ⟨1, 2, 1⟩]).playerModel.map
            (fun m => m.visible) = some true := by
  constructor
  · simp [run, step, keydown, setMode, onModelLoaded, startState, init]
  · simp [run, step, keydown, setMode, onModelLoaded, startState, init, loadedRig]

end Claims

end Script
